import Mathlib

/-!
# Instance resource of the ScaleChamp Terraform provider

A shallow embedding of `resource_instance.go`: the schema builder
`resourceInstance` and the four lifecycle callbacks `resourceCreate`,
`resourceRead`, `resourceUpdate`, `resourceDelete`.

The callbacks talk to two collaborators that live outside the file: the API
client (`goss.Client`) and the framework's `schema.ResourceData`.  Both are
modelled as explicit state: every call a callback issues is appended to a
trace, the client answers from a fixed table of responses, and the
configuration is a record that `Set`/`SetId` update.
-/

namespace Scalechamp

/-! ## Errors -/

/-- A Go error value that is not a `multierr` aggregate: either an error handed
back by a collaborator, or one built in this file with `errors.New`. -/
inductive PlainError where
  | external (msg : String)
  | new (msg : String)
  deriving DecidableEq, Repr

/-- A non-nil Go `error`.  `multi` is the aggregate type of `go.uber.org/multierr`,
which holds a flat list of errors. -/
inductive Error where
  | plain (e : PlainError)
  | multi (errs : List PlainError)
  deriving DecidableEq, Repr

/-- The call `errors.New(msg)`. -/
def errorsNew (msg : String) : Error := .plain (.new msg)

/-- Modelled from the spec: `multierr.Errors` of the external multierr library, the
list of errors an error value stands for (nil stands for none). -/
def multierrErrors : Option Error → List PlainError
  | none => []
  | some (.plain e) => [e]
  | some (.multi es) => es

/-- Modelled from the spec: `multierr.Combine` of the external multierr library
("collects every field-write error rather than stopping at the first").  Nil
entries are skipped; no error left gives nil, a single one is returned as it
is, several are flattened into one aggregate. -/
def multierrCombine (errs : List (Option Error)) : Option Error :=
  match errs.filterMap id with
  | [] => none
  | [e] => some e
  | es => some (.multi (es.flatMap fun e => multierrErrors (some e)))

/-! ## Schema -/

/-- The value types of `schema.ValueType` that the file uses. -/
inductive ValueType where
  | TypeBool
  | TypeString
  | TypeSet
  deriving DecidableEq, Repr

/-- A default value of a schema field (`interface{}` in Go). -/
inductive Value where
  | bool (b : Bool)
  | str (s : String)
  deriving DecidableEq, Repr

/-- The element schema of a set field; the file sets its `Type` only. -/
structure ElemSchema where
  Type_ : ValueType
  deriving DecidableEq, Repr

/-- Modelled from the spec: the fields of the framework's `schema.Schema` that the
file sets; an unset field has Go's zero value. -/
structure Schema where
  Type_ : ValueType
  Required : Bool := false
  Optional : Bool := false
  Computed : Bool := false
  Default : Option Value := none
  Description : String := ""
  Elem : Option ElemSchema := none
  deriving DecidableEq, Repr

/-- A Go `map[string]*schema.Schema`, as an association list with unique keys. -/
abbrev SchemaMap := List (String × Schema)

/-- The assignment `s[k] = v` on a map: replaces the entry of `k`, or adds it. -/
def SchemaMap.set (k : String) (v : Schema) : SchemaMap → SchemaMap
  | [] => [(k, v)]
  | (k', v') :: rest => if k' = k then (k, v) :: rest else (k', v') :: SchemaMap.set k v rest

/-- The lookup `s[k]`. -/
def SchemaMap.get (s : SchemaMap) (k : String) : Option Schema :=
  (s.find? fun kv => kv.1 = k).map Prod.snd

/-- Whether `k` is a key of the map. -/
def SchemaMap.has (s : SchemaMap) (k : String) : Bool :=
  (s.get k).isSome

/-- The map literal of `resourceInstance`, lines 13-70. -/
def baseSchema : SchemaMap :=
  [ ("name", { Type_ := .TypeString, Required := true, Description := "Name of the instance" }),
    ("plan", { Type_ := .TypeString, Required := true,
               Description := "Name of the plan, check in pricing" }),
    ("cloud", { Type_ := .TypeString, Required := true, Description := "Name of the cloud" }),
    ("enabled", { Type_ := .TypeBool, Optional := true, Default := some (.bool true),
                  Description := "use in case do disabled service or enabled it from down" }),
    ("eviction_policy", { Type_ := .TypeString, Optional := true,
                          Description := "redis|keydb|keydb-pro eviction policy" }),
    ("whitelist", { Type_ := .TypeSet, Optional := true,
                    Description := "IP whitelist set of strings",
                    Elem := some { Type_ := .TypeString } }),
    ("region", { Type_ := .TypeString, Required := true,
                 Description := "Name of the cloud region, see pricing table" }),
    ("master_host", { Type_ := .TypeString, Computed := true,
                      Description := "Hostname of master node" }),
    ("replica_host", { Type_ := .TypeString, Computed := true, Optional := true,
                       Description := "Hostname of replica node" }),
    ("password", { Type_ := .TypeString, Optional := true, Computed := true,
                   Description := "Password generated by ScaleChamp or provided by user" }) ]

/-- The schema map `s` that `resourceInstance(kind)` builds, lines 13-84. -/
def instanceSchema (kind : String) : SchemaMap :=
  let s := baseSchema
  let s := if kind = "keydb-pro" then
      SchemaMap.set "license_key"
        { Type_ := .TypeString, Required := true, Description := "Name of the instanceResource" } s
    else s
  let s := if kind = "keydb" ∨ kind = "keydb-pro" ∨ kind = "redis" then
      SchemaMap.set "eviction_policy"
        { Type_ := .TypeString, Optional := true, Description := "Name of the instanceResource" } s
    else s
  s

/-! ## The API client -/

/-- Modelled from the spec: `goss.PlanFindRequest` of the external client library,
`PlanFindRequest{Cloud, Region, Name, Kind}`. -/
structure PlanFindRequest where
  Cloud : String
  Region : String
  Name : String
  Kind : String
  deriving DecidableEq, Repr

/-- Modelled from the spec: `goss.Plan`, of which the file reads `ID`. -/
structure Plan where
  ID : String
  deriving DecidableEq, Repr

/-- Modelled from the spec: `goss.InstanceCreateRequest`; the two variant-gated
fields keep Go's zero value when they are not assigned. -/
structure InstanceCreateRequest where
  Name : String
  Whitelist : List String
  Password : String
  PlanID : String
  EvictionPolicy : String := ""
  LicenseKey : String := ""
  deriving DecidableEq, Repr

/-- Modelled from the spec: the nested connection-info structure of an instance. -/
structure ConnectionInfo where
  MasterHost : String
  ReplicaHost : String
  deriving DecidableEq, Repr

/-- Modelled from the spec: `goss.Instance`,
`Instance{ID, State, Password, ConnectionInfo{MasterHost, ReplicaHost}}`. -/
structure Instance where
  ID : String
  State : String
  Password : String
  ConnectionInfo : ConnectionInfo
  deriving DecidableEq, Repr

/-- Modelled from the spec: `goss.InstanceUpdateRequest`.  `new(...)` gives every
field its zero value: empty strings, a nil slice, a nil `*bool`. -/
structure InstanceUpdateRequest where
  ID : String := ""
  Name : String := ""
  Whitelist : Option (List String) := none
  Password : String := ""
  Enabled : Option Bool := none
  PlanID : String := ""
  EvictionPolicy : String := ""
  LicenseKey : String := ""
  deriving DecidableEq, Repr

/-- The remote service as the callbacks see it through `goss.Client`.
`instancesGet n` is the answer to the `n`-th `Instances.Get` call of the run
(counted from 0); the id each call asks for is recorded in the trace. -/
structure Client where
  plansFind : PlanFindRequest → Except Error Plan
  instancesCreate : InstanceCreateRequest → Except Error Instance
  instancesUpdate : InstanceUpdateRequest → Except Error Instance
  instancesGet : Nat → Except Error Instance
  instancesDelete : String → Option Error

/-- One interaction of a callback with a collaborator: a client call, a
`time.Sleep` (in seconds), or a write to the configuration. -/
inductive Call where
  | plansFind (req : PlanFindRequest)
  | instancesCreate (req : InstanceCreateRequest)
  | instancesGet (id : String)
  | instancesUpdate (req : InstanceUpdateRequest)
  | instancesDelete (id : String)
  | sleep (seconds : Nat)
  | setId (id : String)
  | set (key : String) (value : String)
  deriving DecidableEq, Repr

/-- The calls issued so far, oldest first. -/
abbrev Trace := List Call

/-- The ids of the `Instances.Get` calls of a trace, in order. -/
def getIds : Trace → List String
  | [] => []
  | .instancesGet id :: t => id :: getIds t
  | _ :: t => getIds t

/-- The number of `Instances.Get` calls of a trace. -/
def getCount (t : Trace) : Nat := (getIds t).length

/-- The `d.Set` writes of a trace, in order. -/
def setCalls : Trace → List (String × String)
  | [] => []
  | .set k v :: t => (k, v) :: setCalls t
  | _ :: t => setCalls t

/-- The `d.SetId` calls of a trace, in order. -/
def setIdCalls : Trace → List String
  | [] => []
  | .setId id :: t => id :: setIdCalls t
  | _ :: t => setIdCalls t

/-- The requests of the `Instances.Update` calls of a trace, in order. -/
def updateCalls : Trace → List InstanceUpdateRequest
  | [] => []
  | .instancesUpdate req :: t => req :: updateCalls t
  | _ :: t => updateCalls t

/-- The requests of the `Plans.Find` calls of a trace, in order. -/
def findCalls : Trace → List PlanFindRequest
  | [] => []
  | .plansFind req :: t => req :: findCalls t
  | _ :: t => findCalls t

/-- The requests of the `Instances.Create` calls of a trace, in order. -/
def createCalls : Trace → List InstanceCreateRequest
  | [] => []
  | .instancesCreate req :: t => req :: createCalls t
  | _ :: t => createCalls t

/-- The call `client.Instances.Get(ctx, id)`: logs the call and answers with the
next response of the service. -/
def callGet (c : Client) (id : String) (t : Trace) : Except Error Instance × Trace :=
  (c.instancesGet (getCount t), t ++ [.instancesGet id])

/-- The calls of a run of polling that asks for the ids `ids` in turn, each
`Instances.Get` after a sleep of `secs` seconds. -/
def pollCalls (secs : Nat) (ids : List String) : Trace :=
  ids.flatMap fun id => [.sleep secs, .instancesGet id]

/-! ## The configuration -/

/-- Modelled from the spec: the framework's `schema.ResourceData` for this resource.
The fields are those of the schema, typed as the schema types them; `changed`
is the set of keys for which `HasChange` holds; `setErr key value` is the error
with which the framework's field writer rejects `Set(key, value)`, if it does. -/
structure ResourceData where
  id : String
  name : String
  plan : String
  cloud : String
  region : String
  enabled : Bool
  eviction_policy : String
  whitelist : List String
  license_key : String
  password : String
  master_host : String
  replica_host : String
  changed : List String
  setErr : String → String → Option Error

/-- The call `d.Id()`. -/
def ResourceData.Id (d : ResourceData) : String := d.id

/-- The call `d.SetId(v)`. -/
def ResourceData.SetId (d : ResourceData) (v : String) : ResourceData := { d with id := v }

/-- The call `d.HasChange(key)`. -/
def ResourceData.HasChange (d : ResourceData) (key : String) : Bool := decide (key ∈ d.changed)

/-- The call `d.Get(key).(string)` for the string fields of the schema. -/
def ResourceData.GetString (d : ResourceData) (key : String) : String :=
  if key = "name" then d.name
  else if key = "plan" then d.plan
  else if key = "cloud" then d.cloud
  else if key = "region" then d.region
  else if key = "eviction_policy" then d.eviction_policy
  else if key = "license_key" then d.license_key
  else if key = "password" then d.password
  else if key = "master_host" then d.master_host
  else if key = "replica_host" then d.replica_host
  else ""

/-- The field writer behind `d.Set` for the string fields of the schema. -/
def ResourceData.write (d : ResourceData) (key value : String) : ResourceData :=
  if key = "name" then { d with name := value }
  else if key = "plan" then { d with plan := value }
  else if key = "cloud" then { d with cloud := value }
  else if key = "region" then { d with region := value }
  else if key = "eviction_policy" then { d with eviction_policy := value }
  else if key = "license_key" then { d with license_key := value }
  else if key = "password" then { d with password := value }
  else if key = "master_host" then { d with master_host := value }
  else if key = "replica_host" then { d with replica_host := value }
  else d

/-- The call `d.Set(key, value)` with a string value: logged, then either
rejected with an error, leaving the configuration as it is, or written. -/
def ResourceData.Set (d : ResourceData) (t : Trace) (key value : String) :
    Option Error × ResourceData × Trace :=
  match d.setErr key value with
  | some err => (some err, d, t ++ [.set key value])
  | none => (none, d.write key value, t ++ [.set key value])

/-- The result of a callback: the returned `error` (`none` is nil), the
configuration and the trace when it returns. -/
abbrev Result := Option Error × ResourceData × Trace

/-! ## The lifecycle callbacks -/

/-- The function `toStrings`, lines 146-152: copies the elements into a new slice. -/
def toStrings (x : List String) : List String :=
  x.map fun v => v

/-- The function `boolPtr`, lines 220-222: a pointer to a copy of `b`. -/
def boolPtr (b : Bool) : Option Bool := some b

/-- The method `resourceRead`, lines 224-235. -/
def resourceRead (_kind : String) (c : Client) (d : ResourceData) (t : Trace) : Result :=
  match callGet c d.Id t with
  | (.error err, t) => (some err, d, t)
  | (.ok inst, t) =>
    let (e1, d, t) := d.Set t "password" inst.Password
    let (e2, d, t) := d.Set t "replica_host" inst.ConnectionInfo.ReplicaHost
    let (e3, d, t) := d.Set t "master_host" inst.ConnectionInfo.MasterHost
    (multierrCombine [e1, e2, e3], d, t)

/-- The loop of `resourceCreate`, lines 129-141, with `n` iterations left (the
source enters it with 36).  `some err` is an early `return err`; `none` is
leaving the loop, by `break` or because the counter ran out. -/
def createPoll (c : Client) : Nat → Instance → Trace → Option Error × Trace
  | 0, _, t => (none, t)
  | n + 1, data, t =>
    let t := t ++ [.sleep 10]
    match callGet c data.ID t with
    | (.error err, t) => (some err, t)
    | (.ok data, t) =>
      if data.State = "running" then (none, t)
      else if data.State = "failed" then (some (errorsNew "failed instanceResource"), t)
      else createPoll c n data t

/-- The request `planFindRequest` of `resourceCreate`, lines 101-106, which
`resourceUpdate` builds in the same way, lines 164-169. -/
def planFindRequest (kind : String) (d : ResourceData) : PlanFindRequest :=
  { Cloud := d.GetString "cloud", Region := d.GetString "region",
    Name := d.GetString "plan", Kind := kind }

/-- The request `createRequest` of `resourceCreate`, lines 111-122. -/
def createRequest (kind : String) (d : ResourceData) (plan : Plan) : InstanceCreateRequest :=
  let createRequest : InstanceCreateRequest :=
    { Name := d.GetString "name", Whitelist := toStrings d.whitelist,
      Password := d.GetString "password", PlanID := plan.ID }
  let createRequest :=
    if kind = "redis" ∨ kind = "keydb" ∨ kind = "keydb-pro" then
      { createRequest with EvictionPolicy := d.GetString "eviction_policy" }
    else createRequest
  let createRequest :=
    if kind = "keydb-pro" then
      { createRequest with LicenseKey := d.GetString "license_key" }
    else createRequest
  createRequest

/-- The method `resourceCreate`, lines 99-144. -/
def resourceCreate (kind : String) (c : Client) (d : ResourceData) (t : Trace) : Result :=
  let t := t ++ [.plansFind (planFindRequest kind d)]
  match c.plansFind (planFindRequest kind d) with
  | .error err => (some err, d, t)
  | .ok plan =>
    let t := t ++ [.instancesCreate (createRequest kind d plan)]
    match c.instancesCreate (createRequest kind d plan) with
    | .error err => (some err, d, t)
    | .ok data =>
      let d := d.SetId data.ID
      let t := t ++ [.setId data.ID]
      match createPoll c 36 data t with
      | (some err, t) => (some err, d, t)
      | (none, t) => resourceRead kind c d t

/-- The loop of `resourceUpdate`, lines 204-216, with `n` iterations left (the
source enters it with 50). -/
def updatePoll (c : Client) : Nat → ResourceData → Trace → Option Error × Trace
  | 0, _, t => (none, t)
  | n + 1, d, t =>
    let t := t ++ [.sleep 5]
    match callGet c d.Id t with
    | (.error err, t) => (some err, t)
    | (.ok inst, t) =>
      if inst.State = "running" then (none, t)
      else if inst.State = "failed" then (some (errorsNew "failed instanceResource"), t)
      else updatePoll c n d t

/-- The first part of the request of `resourceUpdate`, lines 156-161: a new
request with the ID, and the name when it changed. -/
def updateRequestHead (d : ResourceData) : InstanceUpdateRequest :=
  let instanceUpdateRequest : InstanceUpdateRequest := {}
  let instanceUpdateRequest := { instanceUpdateRequest with ID := d.Id }
  if d.HasChange "name" then { instanceUpdateRequest with Name := d.GetString "name" }
  else instanceUpdateRequest

/-- The last part of the request of `resourceUpdate`, lines 177-198: password,
enabled, whitelist and the two variant-gated fields, each when it changed. -/
def updateRequestTail (kind : String) (d : ResourceData)
    (instanceUpdateRequest : InstanceUpdateRequest) : InstanceUpdateRequest :=
  let instanceUpdateRequest :=
    if d.HasChange "password" then
      { instanceUpdateRequest with Password := d.GetString "password" }
    else instanceUpdateRequest
  let instanceUpdateRequest :=
    if d.HasChange "enabled" then
      { instanceUpdateRequest with Enabled := boolPtr d.enabled }
    else instanceUpdateRequest
  let instanceUpdateRequest :=
    if d.HasChange "whitelist" then
      { instanceUpdateRequest with Whitelist := some (toStrings d.whitelist) }
    else instanceUpdateRequest
  if kind = "keydb" ∨ kind = "redis" ∨ kind = "keydb-pro" then
    let instanceUpdateRequest :=
      if d.HasChange "eviction_policy" then
        { instanceUpdateRequest with EvictionPolicy := d.GetString "eviction_policy" }
      else instanceUpdateRequest
    if kind = "keydb-pro" then
      if d.HasChange "license_key" then
        { instanceUpdateRequest with LicenseKey := d.GetString "license_key" }
      else instanceUpdateRequest
    else instanceUpdateRequest
  else instanceUpdateRequest

/-- The request `resourceUpdate` builds, lines 156-198, or the error with which
it returns from the plan lookup, lines 163-175; the trace gains the
`Plans.Find` call when the lookup is made. -/
def updateRequest (kind : String) (c : Client) (d : ResourceData) (t : Trace) :
    Except Error InstanceUpdateRequest × Trace :=
  let instanceUpdateRequest := updateRequestHead d
  if d.HasChange "cloud" ∨ d.HasChange "region" ∨ d.HasChange "plan" then
    let t := t ++ [.plansFind (planFindRequest kind d)]
    match c.plansFind (planFindRequest kind d) with
    | .error err => (.error err, t)
    | .ok plan =>
      (.ok (updateRequestTail kind d { instanceUpdateRequest with PlanID := plan.ID }), t)
  else (.ok (updateRequestTail kind d instanceUpdateRequest), t)

/-- The method `resourceUpdate`, lines 154-218. -/
def resourceUpdate (kind : String) (c : Client) (d : ResourceData) (t : Trace) : Result :=
  match updateRequest kind c d t with
  | (.error err, t) => (some err, d, t)
  | (.ok instanceUpdateRequest, t) =>
    let t := t ++ [.instancesUpdate instanceUpdateRequest]
    match c.instancesUpdate instanceUpdateRequest with
    | .error err => (some err, d, t)
    | .ok _ =>
      match updatePoll c 50 d t with
      | (some err, t) => (some err, d, t)
      | (none, t) => resourceRead kind c d t

/-- The method `resourceDelete`, lines 237-240. -/
def resourceDelete (_kind : String) (c : Client) (d : ResourceData) (t : Trace) : Result :=
  (c.instancesDelete d.Id, d, t ++ [.instancesDelete d.Id])

/-- The receiver type `instanceResource`, lines 95-97. -/
structure instanceResource where
  kind : String
  deriving DecidableEq, Repr

/-- Modelled from the spec: the framework's `schema.Resource`, with the four
callbacks and the schema map that the file fills in. -/
structure Resource where
  Create : Client → ResourceData → Trace → Result
  Read : Client → ResourceData → Trace → Result
  Update : Client → ResourceData → Trace → Result
  Delete : Client → ResourceData → Trace → Result
  Schema : SchemaMap

/-- The function `resourceInstance`, lines 12-93. -/
def resourceInstance (kind : String) : Resource :=
  let s := instanceSchema kind
  let i : instanceResource := { kind := kind }
  { Create := resourceCreate i.kind
    Read := resourceRead i.kind
    Update := resourceUpdate i.kind
    Delete := resourceDelete i.kind
    Schema := s }

/-- The answers with indices below `j` are neither `running` nor `failed`. -/
def pendingBelow (c : Client) (j : Nat) : Prop :=
  ∀ i, i < j → ∃ inst, c.instancesGet i = .ok inst ∧
    inst.State ≠ "running" ∧ inst.State ≠ "failed"

/-! ## Sample inputs -/

/-- A configuration as the framework hands it over before creation: no ID yet,
every write accepted. -/
def sampleData : ResourceData :=
  { id := "", name := "cache", plan := "hobby", cloud := "do", region := "fra1",
    enabled := true, eviction_policy := "noeviction", whitelist := ["10.0.0.1"],
    license_key := "lk", password := "", master_host := "", replica_host := "",
    changed := [], setErr := fun _ _ => none }

/-- An instance answer with the given id and state. -/
def sampleInstance (id state : String) : Instance :=
  { ID := id, State := state, Password := "pw",
    ConnectionInfo := { MasterHost := "m.example", ReplicaHost := "r.example" } }

/-- A client that finds the plan `plan-1`, creates the instance `i-1`, accepts
updates and deletions, and answers the `Get` calls from `responses`. -/
def scriptedClient (responses : Nat → Except Error Instance) : Client :=
  { plansFind := fun _ => .ok { ID := "plan-1" }
    instancesCreate := fun _ => .ok (sampleInstance "i-1" "pending")
    instancesUpdate := fun _ => .ok (sampleInstance "i-1" "pending")
    instancesGet := responses
    instancesDelete := fun _ => none }

/-- A client whose plan lookup fails. -/
def noPlanClient : Client :=
  { scriptedClient (fun _ => .ok (sampleInstance "i-1" "running")) with
    plansFind := fun _ => .error (.plain (.external "plan not found")) }

/-- The answers "pending, then failed". -/
def failSecond (n : Nat) : Except Error Instance :=
  if n = 0 then .ok (sampleInstance "i-1" "pending") else .ok (sampleInstance "i-1" "failed")

/-- The answers "pending, then running". -/
def runSecond (n : Nat) : Except Error Instance :=
  if n = 0 then .ok (sampleInstance "i-1" "pending") else .ok (sampleInstance "i-1" "running")

/-- The answers "pending" for ever. -/
def neverDone (_ : Nat) : Except Error Instance :=
  .ok (sampleInstance "i-1" "pending")

/-- The answers of a service whose first answer carries another ID than the
one asked for: "pending" under the ID `i-2`, then "running". -/
def otherId (n : Nat) : Except Error Instance :=
  if n = 0 then .ok (sampleInstance "i-2" "pending") else .ok (sampleInstance "i-2" "running")

/-- The sample configuration with a writer that rejects `master_host`. -/
def readOnlyMaster : ResourceData :=
  { sampleData with
    setErr := fun key _ =>
      if key = "master_host" then some (.plain (.external "master_host: read-only")) else none }

/-- The sample configuration after creation, with the given set of changed keys. -/
def changedData (enabled : Bool) (changed : List String) : ResourceData :=
  { sampleData with id := "i-1", enabled := enabled, changed := changed }

/-! ## Traces -/

theorem getIds_append (t1 t2 : Trace) : getIds (t1 ++ t2) = getIds t1 ++ getIds t2 := by
  induction t1 with
  | nil => rfl
  | cons a t ih => cases a <;> simp [getIds, ih]

theorem setCalls_append (t1 t2 : Trace) : setCalls (t1 ++ t2) = setCalls t1 ++ setCalls t2 := by
  induction t1 with
  | nil => rfl
  | cons a t ih => cases a <;> simp [setCalls, ih]

theorem setIdCalls_append (t1 t2 : Trace) :
    setIdCalls (t1 ++ t2) = setIdCalls t1 ++ setIdCalls t2 := by
  induction t1 with
  | nil => rfl
  | cons a t ih => cases a <;> simp [setIdCalls, ih]

theorem updateCalls_append (t1 t2 : Trace) :
    updateCalls (t1 ++ t2) = updateCalls t1 ++ updateCalls t2 := by
  induction t1 with
  | nil => rfl
  | cons a t ih => cases a <;> simp [updateCalls, ih]

theorem findCalls_append (t1 t2 : Trace) :
    findCalls (t1 ++ t2) = findCalls t1 ++ findCalls t2 := by
  induction t1 with
  | nil => rfl
  | cons a t ih => cases a <;> simp [findCalls, ih]

theorem createCalls_append (t1 t2 : Trace) :
    createCalls (t1 ++ t2) = createCalls t1 ++ createCalls t2 := by
  induction t1 with
  | nil => rfl
  | cons a t ih => cases a <;> simp [createCalls, ih]

theorem getCount_append (t1 t2 : Trace) : getCount (t1 ++ t2) = getCount t1 + getCount t2 := by
  simp [getCount, getIds_append]

theorem pollCalls_nil (secs : Nat) : pollCalls secs [] = [] := rfl

theorem pollCalls_cons (secs : Nat) (id : String) (ids : List String) :
    pollCalls secs (id :: ids) = [.sleep secs, .instancesGet id] ++ pollCalls secs ids := by
  simp [pollCalls]

theorem pollCalls_append (secs : Nat) (ids1 ids2 : List String) :
    pollCalls secs (ids1 ++ ids2) = pollCalls secs ids1 ++ pollCalls secs ids2 := by
  simp [pollCalls]

/-- A run of polling asks for exactly its ids. -/
theorem getIds_pollCalls (secs : Nat) (ids : List String) : getIds (pollCalls secs ids) = ids := by
  induction ids with
  | nil => rfl
  | cons id ids ih => rw [pollCalls_cons, getIds_append, ih]; rfl

theorem getCount_pollCalls (secs : Nat) (ids : List String) :
    getCount (pollCalls secs ids) = ids.length := by
  simp [getCount, getIds_pollCalls]

/-- A run of polling writes nothing to the configuration. -/
theorem setCalls_pollCalls (secs : Nat) (ids : List String) : setCalls (pollCalls secs ids) = [] := by
  induction ids with
  | nil => rfl
  | cons id ids ih => rw [pollCalls_cons, setCalls_append, ih]; rfl

theorem setIdCalls_pollCalls (secs : Nat) (ids : List String) :
    setIdCalls (pollCalls secs ids) = [] := by
  induction ids with
  | nil => rfl
  | cons id ids ih => rw [pollCalls_cons, setIdCalls_append, ih]; rfl

theorem updateCalls_pollCalls (secs : Nat) (ids : List String) :
    updateCalls (pollCalls secs ids) = [] := by
  induction ids with
  | nil => rfl
  | cons id ids ih => rw [pollCalls_cons, updateCalls_append, ih]; rfl

/-! ## The poll loop of Create -/

/-- One iteration of the loop whose `Get` answers with a state that is neither
`running` nor `failed`: the loop goes on with the answer as `data`. -/
theorem createPoll_step_pending (c : Client) (n : Nat) (data inst : Instance) (t : Trace)
    (hget : c.instancesGet (getCount t) = .ok inst)
    (hr : inst.State ≠ "running") (hf : inst.State ≠ "failed") :
    createPoll c (n + 1) data t =
      createPoll c n inst (t ++ pollCalls 10 [data.ID]) := by
  have hc : getCount (t ++ [Call.sleep 10]) = getCount t := by
    rw [getCount_append]; rfl
  rw [createPoll]
  simp only [callGet, hc, hget, if_neg hr, if_neg hf]
  simp [pollCalls]

/-- One iteration of the loop whose `Get` answers with state `failed`. -/
theorem createPoll_step_failed (c : Client) (n : Nat) (data inst : Instance) (t : Trace)
    (hget : c.instancesGet (getCount t) = .ok inst) (hf : inst.State = "failed") :
    createPoll c (n + 1) data t =
      (some (errorsNew "failed instanceResource"), t ++ pollCalls 10 [data.ID]) := by
  have hc : getCount (t ++ [Call.sleep 10]) = getCount t := by
    rw [getCount_append]; rfl
  have hr : inst.State ≠ "running" := by rw [hf]; decide
  rw [createPoll]
  simp only [callGet, hc, hget, if_neg hr, if_pos hf]
  simp [pollCalls]

/-- One iteration of the loop whose `Get` answers with state `running`. -/
theorem createPoll_step_running (c : Client) (n : Nat) (data inst : Instance) (t : Trace)
    (hget : c.instancesGet (getCount t) = .ok inst) (hr : inst.State = "running") :
    createPoll c (n + 1) data t = (none, t ++ pollCalls 10 [data.ID]) := by
  have hc : getCount (t ++ [Call.sleep 10]) = getCount t := by
    rw [getCount_append]; rfl
  rw [createPoll]
  simp only [callGet, hc, hget, if_pos hr]
  simp [pollCalls]

/-- After `j` answers that are neither `running` nor `failed` the loop has
issued `j` polls and has `n - j` iterations left. -/
theorem createPoll_skip (c : Client) (j : Nat) :
    ∀ (n : Nat) (data : Instance) (t : Trace), j ≤ n →
      (∀ i, i < j → ∃ inst, c.instancesGet (getCount t + i) = .ok inst ∧
        inst.State ≠ "running" ∧ inst.State ≠ "failed") →
      ∃ data' ids, ids.length = j ∧
        createPoll c n data t = createPoll c (n - j) data' (t ++ pollCalls 10 ids) := by
  induction j with
  | zero =>
    intro n data t _ _
    exact ⟨data, [], rfl, by simp [pollCalls_nil]⟩
  | succ j ih =>
    intro n data t hn hp
    obtain ⟨m, rfl⟩ : ∃ m, n = m + 1 := ⟨n - 1, by omega⟩
    obtain ⟨inst, hget, hr, hf⟩ := hp 0 (by omega)
    rw [Nat.add_zero] at hget
    have hcount : getCount (t ++ pollCalls 10 [data.ID]) = getCount t + 1 := by
      rw [getCount_append, getCount_pollCalls]; rfl
    obtain ⟨data', ids, hlen, heq⟩ := ih m inst (t ++ pollCalls 10 [data.ID]) (by omega)
      (fun i hi => by
        obtain ⟨x, hx, hxr, hxf⟩ := hp (i + 1) (by omega)
        exact ⟨x, by rw [hcount, Nat.add_assoc, Nat.add_comm 1 i]; exact hx, hxr, hxf⟩)
    refine ⟨data', data.ID :: ids, by simp [hlen], ?_⟩
    rw [createPoll_step_pending c m data inst t hget hr hf, heq, Nat.add_sub_add_right,
      List.append_assoc, ← pollCalls_append]
    rfl

/-! ## The schema builder -/

/-- The schema map takes one of three values, by the two tests on `kind`. -/
theorem instanceSchema_cases (kind : String) :
    (kind = "keydb-pro" ∧ instanceSchema kind = instanceSchema "keydb-pro") ∨
    (kind ≠ "keydb-pro" ∧ (kind = "keydb" ∨ kind = "redis") ∧
      instanceSchema kind = instanceSchema "redis") ∨
    (kind ≠ "keydb-pro" ∧ kind ≠ "keydb" ∧ kind ≠ "redis" ∧
      instanceSchema kind = baseSchema) := by
  by_cases h1 : kind = "keydb-pro"
  · exact Or.inl ⟨h1, by rw [h1]⟩
  · by_cases h2 : kind = "keydb"
    · refine Or.inr (Or.inl ⟨h1, Or.inl h2, ?_⟩)
      subst h2
      decide
    · by_cases h3 : kind = "redis"
      · exact Or.inr (Or.inl ⟨h1, Or.inr h3, by rw [h3]⟩)
      · refine Or.inr (Or.inr ⟨h1, h2, h3, ?_⟩)
        simp [instanceSchema, h1, h2, h3]

/-- C10: for every kind the schema of `resourceInstance kind` has the common
fields (name, plan, cloud, region as required strings; enabled as an optional
bool with default true; whitelist, password, master_host, replica_host), and
it has `license_key`, then as a required string, exactly when the kind is
`keydb-pro`. -/
theorem resourceInstance_common_fields_license_key (kind : String) :
    (∀ k ∈ ["name", "plan", "cloud", "region"],
      ((resourceInstance kind).Schema.get k).map (fun f => (f.Type_, f.Required)) =
        some (.TypeString, true)) ∧
    ((resourceInstance kind).Schema.get "enabled").map
        (fun f => (f.Type_, f.Optional, f.Required, f.Default)) =
      some (.TypeBool, true, false, some (.bool true)) ∧
    (∀ k ∈ ["whitelist", "password", "master_host", "replica_host"],
      (resourceInstance kind).Schema.has k = true) ∧
    ((resourceInstance kind).Schema.has "license_key" = true ↔ kind = "keydb-pro") ∧
    (((resourceInstance kind).Schema.get "license_key").map (fun f => (f.Type_, f.Required)) =
        some (.TypeString, true) ↔ kind = "keydb-pro") := by
  show (∀ k ∈ ["name", "plan", "cloud", "region"],
      ((instanceSchema kind).get k).map (fun f => (f.Type_, f.Required)) =
        some (.TypeString, true)) ∧
    ((instanceSchema kind).get "enabled").map
        (fun f => (f.Type_, f.Optional, f.Required, f.Default)) =
      some (.TypeBool, true, false, some (.bool true)) ∧
    (∀ k ∈ ["whitelist", "password", "master_host", "replica_host"],
      (instanceSchema kind).has k = true) ∧
    ((instanceSchema kind).has "license_key" = true ↔ kind = "keydb-pro") ∧
    (((instanceSchema kind).get "license_key").map (fun f => (f.Type_, f.Required)) =
        some (.TypeString, true) ↔ kind = "keydb-pro")
  rcases instanceSchema_cases kind with ⟨h, e⟩ | ⟨h, _, e⟩ | ⟨h, _, _, e⟩
  · rw [e]
    exact ⟨by decide, by decide, by decide, ⟨fun _ => h, fun _ => by decide⟩,
      ⟨fun _ => h, fun _ => by decide⟩⟩
  · rw [e]
    refine ⟨by decide, by decide, by decide, ⟨fun c => ?_, fun c => absurd c h⟩,
      ⟨fun c => ?_, fun c => absurd c h⟩⟩
    · exact absurd c (by decide)
    · exact absurd c (by decide)
  · rw [e]
    refine ⟨by decide, by decide, by decide, ⟨fun c => ?_, fun c => absurd c h⟩,
      ⟨fun c => ?_, fun c => absurd c h⟩⟩
    · exact absurd c (by decide)
    · exact absurd c (by decide)

/-- C9, the code at kind `mysql`: the kind is none of the three
eviction-capable engines, and the schema still has the key `eviction_policy`,
with the entry of the map literal. -/
theorem resourceInstance_eviction_policy_mysql :
    ¬ ("mysql" = "redis" ∨ "mysql" = "keydb" ∨ "mysql" = "keydb-pro") ∧
    (resourceInstance "mysql").Schema.has "eviction_policy" = true ∧
    (resourceInstance "mysql").Schema.get "eviction_policy" =
      some { Type_ := .TypeString, Optional := true,
             Description := "redis|keydb|keydb-pro eviction policy" } := by
  refine ⟨by decide, ?_, ?_⟩
  · show (instanceSchema "mysql").has "eviction_policy" = true
    decide
  · show (instanceSchema "mysql").get "eviction_policy" = _
    decide

/-! ## Aggregation of errors -/

/-- The aggregate of three results is nil exactly when each of them is. -/
theorem multierrCombine_three_eq_none (e1 e2 e3 : Option Error) :
    multierrCombine [e1, e2, e3] = none ↔ e1 = none ∧ e2 = none ∧ e3 = none := by
  cases e1 <;> cases e2 <;> cases e3 <;> simp [multierrCombine]

/-- The aggregate of three results stands for the errors of each of them, in order. -/
theorem multierrErrors_combine_three (e1 e2 e3 : Option Error) :
    multierrErrors (multierrCombine [e1, e2, e3]) =
      multierrErrors e1 ++ multierrErrors e2 ++ multierrErrors e3 := by
  cases e1 <;> cases e2 <;> cases e3 <;> simp [multierrCombine, multierrErrors]

/-! ## Read -/

/-- The trace and the error of `Set` do not depend on the outcome of the write,
and the writer of the configuration stays the same. -/
theorem ResourceData.Set_setErr (d : ResourceData) (t : Trace) (key value : String) :
    (d.Set t key value).2.1.setErr = d.setErr ∧
    (d.Set t key value).2.2 = t ++ [.set key value] ∧
    (d.Set t key value).1 = d.setErr key value := by
  unfold ResourceData.Set
  cases h : d.setErr key value
  · refine ⟨?_, rfl, rfl⟩
    show (d.write key value).setErr = d.setErr
    unfold ResourceData.write
    repeat' split
    all_goals rfl
  · exact ⟨rfl, rfl, rfl⟩

/-- The result of `resourceRead` when its `Get` succeeds, written out. -/
theorem resourceRead_ok (kind : String) (c : Client) (d : ResourceData)
    (t : Trace) (inst : Instance) (hget : c.instancesGet (getCount t) = .ok inst) :
    resourceRead kind c d t =
      (multierrCombine [d.setErr "password" inst.Password,
          d.setErr "replica_host" inst.ConnectionInfo.ReplicaHost,
          d.setErr "master_host" inst.ConnectionInfo.MasterHost],
        { d with
          password :=
            if d.setErr "password" inst.Password = none then inst.Password else d.password
          replica_host :=
            if d.setErr "replica_host" inst.ConnectionInfo.ReplicaHost = none then
              inst.ConnectionInfo.ReplicaHost else d.replica_host
          master_host :=
            if d.setErr "master_host" inst.ConnectionInfo.MasterHost = none then
              inst.ConnectionInfo.MasterHost else d.master_host },
        t ++ [.instancesGet d.Id, .set "password" inst.Password,
          .set "replica_host" inst.ConnectionInfo.ReplicaHost,
          .set "master_host" inst.ConnectionInfo.MasterHost]) := by
  unfold resourceRead callGet
  rw [hget]
  cases h1 : d.setErr "password" inst.Password <;>
  cases h2 : d.setErr "replica_host" inst.ConnectionInfo.ReplicaHost <;>
  cases h3 : d.setErr "master_host" inst.ConnectionInfo.MasterHost <;>
  simp [ResourceData.Set, ResourceData.write, h1, h2, h3]

/-- The result of `resourceRead` when its `Get` fails: the error is returned and
nothing is written. -/
theorem resourceRead_error (kind : String) (c : Client) (d : ResourceData)
    (t : Trace) (err : Error) (hget : c.instancesGet (getCount t) = .error err) :
    resourceRead kind c d t = (some err, d, t ++ [.instancesGet d.Id]) := by
  unfold resourceRead callGet
  rw [hget]

/-- A `resourceRead` issues one `Get`, whatever the answer. -/
theorem getCount_resourceRead (kind : String) (c : Client) (d : ResourceData) (t : Trace) :
    getCount (resourceRead kind c d t).2.2 = getCount t + 1 := by
  cases h : c.instancesGet (getCount t) with
  | error err => rw [resourceRead_error kind c d t err h, getCount_append]; rfl
  | ok inst => rw [resourceRead_ok kind c d t inst h, getCount_append]; rfl

/-- Reading twice with the same answer of the service leaves the configuration
of the first read. -/
theorem resourceRead_idem (kind : String) (c : Client) (d : ResourceData) (t t2 : Trace)
    (hsame : c.instancesGet (getCount t2) = c.instancesGet (getCount t)) :
    (resourceRead kind c (resourceRead kind c d t).2.1 t2).2.1 = (resourceRead kind c d t).2.1 := by
  cases h : c.instancesGet (getCount t) with
  | error err =>
    rw [resourceRead_error kind c d t err h]
    rw [resourceRead_error kind c _ t2 err (hsame.trans h)]
  | ok inst =>
    rw [resourceRead_ok kind c d t inst h]
    rw [resourceRead_ok kind c _ t2 inst (hsame.trans h)]
    cases h1 : d.setErr "password" inst.Password <;>
    cases h2 : d.setErr "replica_host" inst.ConnectionInfo.ReplicaHost <;>
    cases h3 : d.setErr "master_host" inst.ConnectionInfo.MasterHost <;>
    simp [h1, h2, h3]

/-- C8: when `Instances.Get` succeeds, `resourceRead` issues the three writes
password, replica_host, master_host with the fetched values, in that order and
whatever their outcomes; each write that is accepted takes effect and no other
field, nor the ID, changes; the returned error is nil exactly when the three
writes succeed and otherwise stands for the errors of all failing writes; if
only the master_host write fails, that error is returned and the two other
fields hold the fetched values. -/
theorem resourceRead_writes_and_aggregates (kind : String) (c : Client) (d : ResourceData)
    (t : Trace) (inst : Instance) (hget : c.instancesGet (getCount t) = .ok inst) :
    (resourceRead kind c d t).2.2 =
      t ++ [.instancesGet d.Id, .set "password" inst.Password,
        .set "replica_host" inst.ConnectionInfo.ReplicaHost,
        .set "master_host" inst.ConnectionInfo.MasterHost] ∧
    (resourceRead kind c d t).2.1 =
      { d with
        password :=
          if d.setErr "password" inst.Password = none then inst.Password else d.password
        replica_host :=
          if d.setErr "replica_host" inst.ConnectionInfo.ReplicaHost = none then
            inst.ConnectionInfo.ReplicaHost else d.replica_host
        master_host :=
          if d.setErr "master_host" inst.ConnectionInfo.MasterHost = none then
            inst.ConnectionInfo.MasterHost else d.master_host } ∧
    (resourceRead kind c d t).2.1.Id = d.Id ∧
    ((resourceRead kind c d t).1 = none ↔
      d.setErr "password" inst.Password = none ∧
      d.setErr "replica_host" inst.ConnectionInfo.ReplicaHost = none ∧
      d.setErr "master_host" inst.ConnectionInfo.MasterHost = none) ∧
    multierrErrors (resourceRead kind c d t).1 =
      multierrErrors (d.setErr "password" inst.Password) ++
      multierrErrors (d.setErr "replica_host" inst.ConnectionInfo.ReplicaHost) ++
      multierrErrors (d.setErr "master_host" inst.ConnectionInfo.MasterHost) ∧
    (∀ err, d.setErr "password" inst.Password = none →
      d.setErr "replica_host" inst.ConnectionInfo.ReplicaHost = none →
      d.setErr "master_host" inst.ConnectionInfo.MasterHost = some err →
      (resourceRead kind c d t).1 = some err ∧
      (resourceRead kind c d t).2.1.password = inst.Password ∧
      (resourceRead kind c d t).2.1.replica_host = inst.ConnectionInfo.ReplicaHost ∧
      (resourceRead kind c d t).2.1.master_host = d.master_host) := by
  have hres := resourceRead_ok kind c d t inst hget
  rw [hres]
  refine ⟨rfl, rfl, rfl, multierrCombine_three_eq_none _ _ _,
    multierrErrors_combine_three _ _ _, ?_⟩
  intro err h1 h2 h3
  refine ⟨?_, ?_, ?_, ?_⟩
  · show multierrCombine _ = some err
    rw [h1, h2, h3]
    rfl
  · show (if _ then _ else _) = _
    rw [if_pos h1]
  · show (if _ then _ else _) = _
    rw [if_pos h2]
  · show (if _ then _ else _) = _
    rw [h3]
    rfl

/-! ## Create -/

/-- C1: when `Plans.Find` fails, `resourceCreate` returns that error after the
one `Plans.Find` call: no `Instances.Create`, no `Instances.Get`, no `SetId`,
no `Set`, and the configuration is the one it was given. -/
theorem resourceCreate_find_error (kind : String) (c : Client) (d : ResourceData) (t : Trace)
    (err : Error) (hfind : c.plansFind (planFindRequest kind d) = .error err) :
    resourceCreate kind c d t = (some err, d, t ++ [.plansFind (planFindRequest kind d)]) ∧
    createCalls (resourceCreate kind c d t).2.2 = createCalls t ∧
    getIds (resourceCreate kind c d t).2.2 = getIds t ∧
    setIdCalls (resourceCreate kind c d t).2.2 = setIdCalls t ∧
    setCalls (resourceCreate kind c d t).2.2 = setCalls t := by
  have h : resourceCreate kind c d t =
      (some err, d, t ++ [.plansFind (planFindRequest kind d)]) := by
    unfold resourceCreate
    simp only [hfind]
  rw [h]
  refine ⟨rfl, ?_, ?_, ?_, ?_⟩
  · show createCalls (t ++ _) = _
    rw [createCalls_append]; simp [createCalls]
  · show getIds (t ++ _) = _
    rw [getIds_append]; simp [getIds]
  · show setIdCalls (t ++ _) = _
    rw [setIdCalls_append]; simp [setIdCalls]
  · show setCalls (t ++ _) = _
    rw [setCalls_append]; simp [setCalls]

/-- The result of `resourceCreate` once the plan is found and the instance is
created: the loop decides between an early return and the read-back. -/
theorem resourceCreate_after_create (kind : String) (c : Client) (d : ResourceData)
    (plan : Plan) (data : Instance)
    (hfind : c.plansFind (planFindRequest kind d) = .ok plan)
    (hcreate : c.instancesCreate (createRequest kind d plan) = .ok data) :
    resourceCreate kind c d [] =
      match createPoll c 36 data
        [.plansFind (planFindRequest kind d), .instancesCreate (createRequest kind d plan),
          .setId data.ID] with
      | (some err, t) => (some err, d.SetId data.ID, t)
      | (none, t) => resourceRead kind c (d.SetId data.ID) t := by
  unfold resourceCreate
  simp only [hfind, hcreate]
  rfl

/-- C2: when the plan is found, the instance is created, the first `k - 1`
polls answer with a state that is neither `running` nor `failed` and the
`k`-th poll answers `failed` (`1 ≤ k ≤ 36`), `resourceCreate` returns the error
`failed instanceResource`; its calls are `Plans.Find`, `Instances.Create`,
`SetId` and `k` polls, so exactly `k` `Get`s and no write of a field; the
configuration differs from the given one in the ID only. -/
theorem resourceCreate_failed_at_poll (kind : String) (c : Client) (d : ResourceData)
    (plan : Plan) (data : Instance) (k : Nat) (hk1 : 1 ≤ k) (hk : k ≤ 36)
    (hfind : c.plansFind (planFindRequest kind d) = .ok plan)
    (hcreate : c.instancesCreate (createRequest kind d plan) = .ok data)
    (hpend : ∀ i, i < k - 1 → ∃ inst, c.instancesGet i = .ok inst ∧
      inst.State ≠ "running" ∧ inst.State ≠ "failed")
    (hfail : ∃ inst, c.instancesGet (k - 1) = .ok inst ∧ inst.State = "failed") :
    (resourceCreate kind c d []).1 = some (errorsNew "failed instanceResource") ∧
    getCount (resourceCreate kind c d []).2.2 = k ∧
    setCalls (resourceCreate kind c d []).2.2 = [] ∧
    (resourceCreate kind c d []).2.1 = d.SetId data.ID ∧
    ∃ ids, ids.length = k ∧
      (resourceCreate kind c d []).2.2 =
        [.plansFind (planFindRequest kind d), .instancesCreate (createRequest kind d plan),
          .setId data.ID] ++ pollCalls 10 ids := by
  obtain ⟨inst, hget, hstate⟩ := hfail
  obtain ⟨data', ids, hlen, hskip⟩ := createPoll_skip c (k - 1) 36 data
    [.plansFind (planFindRequest kind d), .instancesCreate (createRequest kind d plan),
      .setId data.ID] (by omega)
    (fun i hi => by
      obtain ⟨x, hx, hxr, hxf⟩ := hpend i hi
      have h0 : getCount [Call.plansFind (planFindRequest kind d),
          Call.instancesCreate (createRequest kind d plan), Call.setId data.ID] = 0 := rfl
      exact ⟨x, by rw [h0, Nat.zero_add]; exact hx, hxr, hxf⟩)
  obtain ⟨m, hm⟩ : ∃ m, 36 - (k - 1) = m + 1 := ⟨36 - k, by omega⟩
  have hcnt : getCount ([Call.plansFind (planFindRequest kind d),
      Call.instancesCreate (createRequest kind d plan), Call.setId data.ID] ++
      pollCalls 10 ids) = k - 1 := by
    rw [getCount_append, getCount_pollCalls, hlen]
    show 0 + (k - 1) = k - 1
    omega
  have hres : resourceCreate kind c d [] =
      (some (errorsNew "failed instanceResource"), d.SetId data.ID,
        [.plansFind (planFindRequest kind d), .instancesCreate (createRequest kind d plan),
          .setId data.ID] ++ pollCalls 10 (ids ++ [data'.ID])) := by
    rw [resourceCreate_after_create kind c d plan data hfind hcreate, hskip, hm,
      createPoll_step_failed c m data' inst _ (by rw [hcnt]; exact hget) hstate,
      pollCalls_append, List.append_assoc]
  have hlen' : (ids ++ [data'.ID]).length = k := by
    rw [List.length_append, hlen]
    show k - 1 + 1 = k
    omega
  rw [hres]
  refine ⟨rfl, ?_, ?_, rfl, ids ++ [data'.ID], hlen', rfl⟩
  · show getCount (_ ++ _) = k
    rw [getCount_append, getCount_pollCalls, hlen']
    show 0 + k = k
    omega
  · show setCalls (_ ++ _) = []
    rw [setCalls_append, setCalls_pollCalls]
    rfl

/-- C3: when the plan is found, the instance is created and each of the first
36 polls answers with a state that is neither `running` nor `failed`,
`resourceCreate` polls exactly 36 times, writes nothing meanwhile, and returns
what `resourceRead` returns on the configuration with the new ID, so 37 `Get`s
in all; the error is nil when the read-back `Get` and its three writes
succeed; a further `resourceRead` that gets the same answer as the read-back
leaves the configuration as it is. -/
theorem resourceCreate_poll_exhausted (kind : String) (c : Client) (d : ResourceData)
    (plan : Plan) (data : Instance)
    (hfind : c.plansFind (planFindRequest kind d) = .ok plan)
    (hcreate : c.instancesCreate (createRequest kind d plan) = .ok data)
    (hpend : ∀ i, i < 36 → ∃ inst, c.instancesGet i = .ok inst ∧
      inst.State ≠ "running" ∧ inst.State ≠ "failed") :
    (∃ ids, ids.length = 36 ∧
      resourceCreate kind c d [] =
        resourceRead kind c (d.SetId data.ID)
          ([.plansFind (planFindRequest kind d), .instancesCreate (createRequest kind d plan),
            .setId data.ID] ++ pollCalls 10 ids)) ∧
    getCount (resourceCreate kind c d []).2.2 = 37 ∧
    (∀ inst, c.instancesGet 36 = .ok inst →
      d.setErr "password" inst.Password = none →
      d.setErr "replica_host" inst.ConnectionInfo.ReplicaHost = none →
      d.setErr "master_host" inst.ConnectionInfo.MasterHost = none →
      (resourceCreate kind c d []).1 = none) ∧
    (c.instancesGet 37 = c.instancesGet 36 →
      (resourceRead kind c (resourceCreate kind c d []).2.1
        (resourceCreate kind c d []).2.2).2.1 = (resourceCreate kind c d []).2.1) := by
  obtain ⟨data', ids, hlen, hskip⟩ := createPoll_skip c 36 36 data
    [.plansFind (planFindRequest kind d), .instancesCreate (createRequest kind d plan),
      .setId data.ID] (Nat.le_refl _)
    (fun i hi => by
      obtain ⟨x, hx, hxr, hxf⟩ := hpend i hi
      have h0 : getCount [Call.plansFind (planFindRequest kind d),
          Call.instancesCreate (createRequest kind d plan), Call.setId data.ID] = 0 := rfl
      exact ⟨x, by rw [h0, Nat.zero_add]; exact hx, hxr, hxf⟩)
  have hcnt : getCount ([Call.plansFind (planFindRequest kind d),
      Call.instancesCreate (createRequest kind d plan), Call.setId data.ID] ++
      pollCalls 10 ids) = 36 := by
    rw [getCount_append, getCount_pollCalls, hlen]
    rfl
  have hres : resourceCreate kind c d [] =
      resourceRead kind c (d.SetId data.ID)
        ([.plansFind (planFindRequest kind d), .instancesCreate (createRequest kind d plan),
          .setId data.ID] ++ pollCalls 10 ids) := by
    rw [resourceCreate_after_create kind c d plan data hfind hcreate, hskip, Nat.sub_self]
    rfl
  have hcnt2 : getCount (resourceCreate kind c d []).2.2 = 37 := by
    rw [hres, getCount_resourceRead, hcnt]
  refine ⟨⟨ids, hlen, hres⟩, hcnt2, ?_, ?_⟩
  · intro inst hget h1 h2 h3
    rw [hres, resourceRead_ok kind c _ _ inst (by rw [hcnt]; exact hget)]
    show multierrCombine _ = none
    exact (multierrCombine_three_eq_none _ _ _).2 ⟨h1, h2, h3⟩
  · intro hsame
    have h37 : getCount (resourceCreate kind c d []).2.2 = 37 := hcnt2
    rw [hres] at h37 ⊢
    exact resourceRead_idem kind c _ _ _ (by rw [h37, hcnt]; exact hsame)

/-- C1 at a sample input: the plan lookup fails and `resourceCreate` returns
its error after the one call. -/
theorem resourceCreate_find_error_witness :
    noPlanClient.plansFind (planFindRequest "redis" sampleData) =
      .error (.plain (.external "plan not found")) ∧
    resourceCreate "redis" noPlanClient sampleData [] =
      (some (.plain (.external "plan not found")), sampleData,
        [] ++ [.plansFind (planFindRequest "redis" sampleData)]) :=
  ⟨rfl, (resourceCreate_find_error "redis" noPlanClient sampleData []
    (.plain (.external "plan not found")) rfl).1⟩

/-- C2 at a sample input: `failed` on the second poll gives the error after
two `Get`s. -/
theorem resourceCreate_failed_at_poll_witness :
    (resourceCreate "redis" (scriptedClient failSecond) sampleData []).1 =
      some (errorsNew "failed instanceResource") ∧
    getCount (resourceCreate "redis" (scriptedClient failSecond) sampleData []).2.2 = 2 ∧
    setCalls (resourceCreate "redis" (scriptedClient failSecond) sampleData []).2.2 = [] :=
  have h := resourceCreate_failed_at_poll "redis" (scriptedClient failSecond) sampleData
    { ID := "plan-1" } (sampleInstance "i-1" "pending") 2 (by decide) (by decide) rfl rfl
    (fun i hi => ⟨sampleInstance "i-1" "pending",
      by have h0 : i = 0 := by omega
         subst h0
         rfl,
      by decide, by decide⟩)
    ⟨sampleInstance "i-1" "failed", rfl, rfl⟩
  ⟨h.1, h.2.1, h.2.2.1⟩

/-- C3 at a sample input: 36 polls that answer `pending`, then the read-back,
and no error. -/
theorem resourceCreate_poll_exhausted_witness :
    getCount (resourceCreate "redis" (scriptedClient neverDone) sampleData []).2.2 = 37 ∧
    (resourceCreate "redis" (scriptedClient neverDone) sampleData []).1 = none :=
  have h := resourceCreate_poll_exhausted "redis" (scriptedClient neverDone) sampleData
    { ID := "plan-1" } (sampleInstance "i-1" "pending") rfl rfl
    (fun _ _ => ⟨sampleInstance "i-1" "pending", rfl, by decide, by decide⟩)
  ⟨h.2.1, h.2.2.1 (sampleInstance "i-1" "pending") rfl rfl rfl rfl⟩

/-- C4, the code at a sample input: `Instances.Create` returns the ID `i-1`,
which is assigned to the configuration; the first poll asks for `i-1` and is
answered with an instance whose ID is `i-2`; the second poll asks for `i-2`,
not for the ID of the configuration; the read-back asks for `i-1` again. -/
theorem resourceCreate_polls_answered_id :
    (scriptedClient otherId).instancesCreate
        (createRequest "redis" sampleData { ID := "plan-1" }) =
      .ok (sampleInstance "i-1" "pending") ∧
    (resourceCreate "redis" (scriptedClient otherId) sampleData []).2.1.Id = "i-1" ∧
    setIdCalls (resourceCreate "redis" (scriptedClient otherId) sampleData []).2.2 = ["i-1"] ∧
    getIds (resourceCreate "redis" (scriptedClient otherId) sampleData []).2.2 =
      ["i-1", "i-2", "i-1"] := by
  refine ⟨rfl, ?_, ?_, ?_⟩ <;> decide

/-- C8 at a sample input: the writer rejects `master_host` only; the error of
that write is returned and the two other fields are set. -/
theorem resourceRead_writes_and_aggregates_witness :
    (scriptedClient runSecond).instancesGet (getCount []) =
      .ok (sampleInstance "i-1" "pending") ∧
    (resourceRead "redis" (scriptedClient runSecond) readOnlyMaster []).1 =
      some (.plain (.external "master_host: read-only")) ∧
    (resourceRead "redis" (scriptedClient runSecond) readOnlyMaster []).2.1.password = "pw" ∧
    (resourceRead "redis" (scriptedClient runSecond) readOnlyMaster []).2.1.replica_host =
      "r.example" ∧
    (resourceRead "redis" (scriptedClient runSecond) readOnlyMaster []).2.1.master_host = "" :=
  ⟨rfl, (resourceRead_writes_and_aggregates "redis" (scriptedClient runSecond) readOnlyMaster []
    (sampleInstance "i-1" "pending") rfl).2.2.2.2.2
      (.plain (.external "master_host: read-only")) rfl rfl rfl⟩

/-! ## Update -/

/-- The last part of the request leaves ID, plan ID and name as they are and
sets `Enabled` exactly when `enabled` changed. -/
theorem updateRequestTail_fields (kind : String) (d : ResourceData) (r : InstanceUpdateRequest) :
    (updateRequestTail kind d r).ID = r.ID ∧
    (updateRequestTail kind d r).PlanID = r.PlanID ∧
    (updateRequestTail kind d r).Name = r.Name ∧
    (updateRequestTail kind d r).Enabled =
      if d.HasChange "enabled" then some d.enabled else r.Enabled := by
  delta updateRequestTail
  generalize d.HasChange "password" = b1
  generalize d.HasChange "enabled" = b2
  generalize d.HasChange "whitelist" = b3
  generalize d.HasChange "eviction_policy" = b4
  generalize d.HasChange "license_key" = b5
  cases b1 <;> cases b2 <;> cases b3 <;> cases b4 <;> cases b5 <;>
    simp only [if_true, if_false, Bool.false_eq_true, boolPtr] <;>
    refine ⟨?_, ?_, ?_, ?_⟩ <;> split_ifs <;> rfl

/-- The first part of the request carries the ID of the configuration, no plan
ID and no `Enabled`. -/
theorem updateRequestHead_fields (d : ResourceData) :
    (updateRequestHead d).ID = d.Id ∧ (updateRequestHead d).PlanID = "" ∧
    (updateRequestHead d).Enabled = none := by
  unfold updateRequestHead
  refine ⟨?_, ?_, ?_⟩ <;> split_ifs <;> rfl

/-- The three outcomes of building the request: the lookup is made and fails,
is made and succeeds, or is not made. -/
theorem updateRequest_cases (kind : String) (c : Client) (d : ResourceData) (t : Trace) :
    (("cloud" ∈ d.changed ∨ "region" ∈ d.changed ∨ "plan" ∈ d.changed) ∧
      ∃ err, c.plansFind (planFindRequest kind d) = .error err ∧
        updateRequest kind c d t = (.error err, t ++ [.plansFind (planFindRequest kind d)])) ∨
    (("cloud" ∈ d.changed ∨ "region" ∈ d.changed ∨ "plan" ∈ d.changed) ∧
      ∃ plan, c.plansFind (planFindRequest kind d) = .ok plan ∧
        updateRequest kind c d t =
          (.ok (updateRequestTail kind d { updateRequestHead d with PlanID := plan.ID }),
            t ++ [.plansFind (planFindRequest kind d)])) ∨
    (¬ ("cloud" ∈ d.changed ∨ "region" ∈ d.changed ∨ "plan" ∈ d.changed) ∧
      updateRequest kind c d t = (.ok (updateRequestTail kind d (updateRequestHead d)), t)) := by
  have hiff : (d.HasChange "cloud" = true ∨ d.HasChange "region" = true ∨
      d.HasChange "plan" = true) ↔
      ("cloud" ∈ d.changed ∨ "region" ∈ d.changed ∨ "plan" ∈ d.changed) := by
    unfold ResourceData.HasChange
    rw [decide_eq_true_eq, decide_eq_true_eq, decide_eq_true_eq]
  by_cases hc : "cloud" ∈ d.changed ∨ "region" ∈ d.changed ∨ "plan" ∈ d.changed
  · cases hf : c.plansFind (planFindRequest kind d) with
    | error err =>
      refine Or.inl ⟨hc, err, rfl, ?_⟩
      unfold updateRequest
      simp only [if_pos (hiff.2 hc), hf]
    | ok plan =>
      refine Or.inr (Or.inl ⟨hc, plan, rfl, ?_⟩)
      unfold updateRequest
      simp only [if_pos (hiff.2 hc), hf]
  · refine Or.inr (Or.inr ⟨hc, ?_⟩)
    unfold updateRequest
    simp only [if_neg (fun h => hc (hiff.1 h))]

/-! ## The poll loop of Update -/

/-- One iteration of the loop whose `Get` answers with a state that is neither
`running` nor `failed`. -/
theorem updatePoll_step_pending (c : Client) (n : Nat) (d : ResourceData) (inst : Instance)
    (t : Trace) (hget : c.instancesGet (getCount t) = .ok inst)
    (hr : inst.State ≠ "running") (hf : inst.State ≠ "failed") :
    updatePoll c (n + 1) d t = updatePoll c n d (t ++ pollCalls 5 [d.Id]) := by
  have hc : getCount (t ++ [Call.sleep 5]) = getCount t := by
    rw [getCount_append]; rfl
  rw [updatePoll]
  simp only [callGet, hc, hget, if_neg hr, if_neg hf]
  simp [pollCalls]

/-- One iteration of the loop whose `Get` answers with state `failed`. -/
theorem updatePoll_step_failed (c : Client) (n : Nat) (d : ResourceData) (inst : Instance)
    (t : Trace) (hget : c.instancesGet (getCount t) = .ok inst) (hf : inst.State = "failed") :
    updatePoll c (n + 1) d t =
      (some (errorsNew "failed instanceResource"), t ++ pollCalls 5 [d.Id]) := by
  have hc : getCount (t ++ [Call.sleep 5]) = getCount t := by
    rw [getCount_append]; rfl
  have hr : inst.State ≠ "running" := by rw [hf]; decide
  rw [updatePoll]
  simp only [callGet, hc, hget, if_neg hr, if_pos hf]
  simp [pollCalls]

/-- One iteration of the loop whose `Get` answers with state `running`. -/
theorem updatePoll_step_running (c : Client) (n : Nat) (d : ResourceData) (inst : Instance)
    (t : Trace) (hget : c.instancesGet (getCount t) = .ok inst) (hr : inst.State = "running") :
    updatePoll c (n + 1) d t = (none, t ++ pollCalls 5 [d.Id]) := by
  have hc : getCount (t ++ [Call.sleep 5]) = getCount t := by
    rw [getCount_append]; rfl
  rw [updatePoll]
  simp only [callGet, hc, hget, if_pos hr]
  simp [pollCalls]

/-- One iteration of the loop whose `Get` fails. -/
theorem updatePoll_step_error (c : Client) (n : Nat) (d : ResourceData) (err : Error)
    (t : Trace) (hget : c.instancesGet (getCount t) = .error err) :
    updatePoll c (n + 1) d t = (some err, t ++ pollCalls 5 [d.Id]) := by
  have hc : getCount (t ++ [Call.sleep 5]) = getCount t := by
    rw [getCount_append]; rfl
  rw [updatePoll]
  simp only [callGet, hc, hget]
  simp [pollCalls]

theorem pollCalls_replicate_succ (secs : Nat) (id : String) (j : Nat) :
    pollCalls secs [id] ++ pollCalls secs (List.replicate j id) =
      pollCalls secs (List.replicate (j + 1) id) := by
  rw [← pollCalls_append]
  rfl

/-- After `j` answers that are neither `running` nor `failed` the loop has
issued `j` polls for the ID of the configuration and has `n - j` iterations left. -/
theorem updatePoll_skip (c : Client) (d : ResourceData) (j : Nat) :
    ∀ (n : Nat) (t : Trace), j ≤ n →
      (∀ i, i < j → ∃ inst, c.instancesGet (getCount t + i) = .ok inst ∧
        inst.State ≠ "running" ∧ inst.State ≠ "failed") →
      updatePoll c n d t =
        updatePoll c (n - j) d (t ++ pollCalls 5 (List.replicate j d.Id)) := by
  induction j with
  | zero =>
    intro n t _ _
    simp [pollCalls_nil]
  | succ j ih =>
    intro n t hn hp
    obtain ⟨m, rfl⟩ : ∃ m, n = m + 1 := ⟨n - 1, by omega⟩
    obtain ⟨inst, hget, hr, hf⟩ := hp 0 (by omega)
    rw [Nat.add_zero] at hget
    have hcount : getCount (t ++ pollCalls 5 [d.Id]) = getCount t + 1 := by
      rw [getCount_append, getCount_pollCalls]; rfl
    have h := ih m (t ++ pollCalls 5 [d.Id]) (by omega)
      (fun i hi => by
        obtain ⟨x, hx, hxr, hxf⟩ := hp (i + 1) (by omega)
        exact ⟨x, by rw [hcount, Nat.add_assoc, Nat.add_comm 1 i]; exact hx, hxr, hxf⟩)
    rw [updatePoll_step_pending c m d inst t hget hr hf, h, Nat.add_sub_add_right,
      List.append_assoc, pollCalls_replicate_succ]

/-- Whatever the service answers, the loop with `n` iterations issues at most
`n` polls, all for the ID of the configuration. -/
theorem updatePoll_trace (c : Client) (d : ResourceData) (n : Nat) :
    ∀ t : Trace, ∃ k, k ≤ n ∧
      (updatePoll c n d t).2 = t ++ pollCalls 5 (List.replicate k d.Id) := by
  induction n with
  | zero =>
    intro t
    exact ⟨0, Nat.le_refl _, by simp [updatePoll, pollCalls_nil]⟩
  | succ n ih =>
    intro t
    cases hget : c.instancesGet (getCount t) with
    | error err =>
      exact ⟨1, by omega, by rw [updatePoll_step_error c n d err t hget]; rfl⟩
    | ok inst =>
      by_cases hr : inst.State = "running"
      · exact ⟨1, by omega, by rw [updatePoll_step_running c n d inst t hget hr]; rfl⟩
      · by_cases hf : inst.State = "failed"
        · exact ⟨1, by omega, by rw [updatePoll_step_failed c n d inst t hget hf]; rfl⟩
        · obtain ⟨k, hk, hk2⟩ := ih (t ++ pollCalls 5 [d.Id])
          refine ⟨k + 1, by omega, ?_⟩
          rw [updatePoll_step_pending c n d inst t hget hr hf, hk2, List.append_assoc,
            pollCalls_replicate_succ]

/-- The two loops agree: run with the same number of iterations against the
same answers, from traces with the same number of `Get`s, they end in the same
way after the same number of `Get`s. -/
theorem createPoll_updatePoll (c : Client) (n : Nat) :
    ∀ (data : Instance) (d : ResourceData) (t t' : Trace), getCount t = getCount t' →
      (createPoll c n data t).1 = (updatePoll c n d t').1 ∧
      getCount (createPoll c n data t).2 = getCount (updatePoll c n d t').2 := by
  induction n with
  | zero =>
    intro data d t t' h
    exact ⟨rfl, h⟩
  | succ n ih =>
    intro data d t t' h
    have hc : getCount (t ++ [Call.sleep 10]) = getCount t := by
      rw [getCount_append]; rfl
    have hc1 : ∀ id, getCount (t ++ pollCalls 10 [id]) = getCount t + 1 := by
      intro id; rw [getCount_append, getCount_pollCalls]; rfl
    have hc2 : ∀ id, getCount (t' ++ pollCalls 5 [id]) = getCount t' + 1 := by
      intro id; rw [getCount_append, getCount_pollCalls]; rfl
    cases hget : c.instancesGet (getCount t) with
    | error err =>
      rw [updatePoll_step_error c n d err t' (h ▸ hget)]
      have : createPoll c (n + 1) data t = (some err, t ++ pollCalls 10 [data.ID]) := by
        rw [createPoll]
        simp only [callGet, hc, hget]
        simp [pollCalls]
      rw [this]
      exact ⟨rfl, by rw [hc1, hc2, h]⟩
    | ok inst =>
      by_cases hr : inst.State = "running"
      · rw [updatePoll_step_running c n d inst t' (h ▸ hget) hr,
          createPoll_step_running c n data inst t hget hr]
        exact ⟨rfl, by rw [hc1, hc2, h]⟩
      · by_cases hf : inst.State = "failed"
        · rw [updatePoll_step_failed c n d inst t' (h ▸ hget) hf,
            createPoll_step_failed c n data inst t hget hf]
          exact ⟨rfl, by rw [hc1, hc2, h]⟩
        · rw [updatePoll_step_pending c n d inst t' (h ▸ hget) hr hf,
            createPoll_step_pending c n data inst t hget hr hf]
          exact ih inst d _ _ (by rw [hc1, hc2, h])

theorem findCalls_pollCalls (secs : Nat) (ids : List String) :
    findCalls (pollCalls secs ids) = [] := by
  induction ids with
  | nil => rfl
  | cons id ids ih => rw [pollCalls_cons, findCalls_append, ih]; rfl

theorem pollCalls_replicate_succ_end (secs : Nat) (id : String) (j : Nat) :
    pollCalls secs (List.replicate j id) ++ pollCalls secs [id] =
      pollCalls secs (List.replicate (j + 1) id) := by
  rw [← pollCalls_append, List.replicate_succ']

/-- The loop of Update, entered before any `Get`, whose `k`-th answer is the
first `running` one. -/
theorem updatePoll_running_at (c : Client) (d : ResourceData) (n k : Nat) (t : Trace)
    (h0 : getCount t = 0) (hk1 : 1 ≤ k) (hk : k ≤ n) (hp : pendingBelow c (k - 1))
    (hrun : ∃ inst, c.instancesGet (k - 1) = .ok inst ∧ inst.State = "running") :
    updatePoll c n d t = (none, t ++ pollCalls 5 (List.replicate k d.Id)) := by
  obtain ⟨inst, hget, hstate⟩ := hrun
  obtain ⟨m, hm⟩ : ∃ m, n - (k - 1) = m + 1 := ⟨n - k, by omega⟩
  have hcnt : getCount (t ++ pollCalls 5 (List.replicate (k - 1) d.Id)) = k - 1 := by
    rw [getCount_append, getCount_pollCalls, h0, List.length_replicate, Nat.zero_add]
  have hk' : k - 1 + 1 = k := by omega
  rw [updatePoll_skip c d (k - 1) n t (by omega) (fun i hi => by
      rw [h0, Nat.zero_add]; exact hp i hi), hm,
    updatePoll_step_running c m d inst _ (by rw [hcnt]; exact hget) hstate,
    List.append_assoc, pollCalls_replicate_succ_end, hk']

/-- The loop of Update, entered before any `Get`, whose `k`-th answer is the
first `failed` one. -/
theorem updatePoll_failed_at (c : Client) (d : ResourceData) (n k : Nat) (t : Trace)
    (h0 : getCount t = 0) (hk1 : 1 ≤ k) (hk : k ≤ n) (hp : pendingBelow c (k - 1))
    (hfail : ∃ inst, c.instancesGet (k - 1) = .ok inst ∧ inst.State = "failed") :
    updatePoll c n d t =
      (some (errorsNew "failed instanceResource"),
        t ++ pollCalls 5 (List.replicate k d.Id)) := by
  obtain ⟨inst, hget, hstate⟩ := hfail
  obtain ⟨m, hm⟩ : ∃ m, n - (k - 1) = m + 1 := ⟨n - k, by omega⟩
  have hcnt : getCount (t ++ pollCalls 5 (List.replicate (k - 1) d.Id)) = k - 1 := by
    rw [getCount_append, getCount_pollCalls, h0, List.length_replicate, Nat.zero_add]
  have hk' : k - 1 + 1 = k := by omega
  rw [updatePoll_skip c d (k - 1) n t (by omega) (fun i hi => by
      rw [h0, Nat.zero_add]; exact hp i hi), hm,
    updatePoll_step_failed c m d inst _ (by rw [hcnt]; exact hget) hstate,
    List.append_assoc, pollCalls_replicate_succ_end, hk']

/-- The loop of Update, entered before any `Get`, none of whose `n` answers is
`running` or `failed`. -/
theorem updatePoll_exhausted (c : Client) (d : ResourceData) (n : Nat) (t : Trace)
    (h0 : getCount t = 0) (hp : pendingBelow c n) :
    updatePoll c n d t = (none, t ++ pollCalls 5 (List.replicate n d.Id)) := by
  rw [updatePoll_skip c d n n t (Nat.le_refl _) (fun i hi => by
      rw [h0, Nat.zero_add]; exact hp i hi), Nat.sub_self]
  rfl

/-- Building the request issues no `Get`. -/
theorem getCount_updateRequest (kind : String) (c : Client) (d : ResourceData) (t : Trace) :
    getCount (updateRequest kind c d t).2 = getCount t := by
  rcases updateRequest_cases kind c d t with ⟨_, err, _, h⟩ | ⟨_, plan, _, h⟩ | ⟨_, h⟩
  · rw [h, getCount_append]; rfl
  · rw [h, getCount_append]; rfl
  · rw [h]

/-- The result of `resourceUpdate` when the plan lookup fails. -/
theorem resourceUpdate_of_request_error (kind : String) (c : Client) (d : ResourceData)
    (t t1 : Trace) (err : Error) (h : updateRequest kind c d t = (.error err, t1)) :
    resourceUpdate kind c d t = (some err, d, t1) := by
  unfold resourceUpdate
  rw [h]

/-- The result of `resourceUpdate` when `Instances.Update` fails. -/
theorem resourceUpdate_of_update_error (kind : String) (c : Client) (d : ResourceData)
    (t t1 : Trace) (req : InstanceUpdateRequest) (err : Error)
    (h : updateRequest kind c d t = (.ok req, t1))
    (hupd : c.instancesUpdate req = .error err) :
    resourceUpdate kind c d t = (some err, d, t1 ++ [.instancesUpdate req]) := by
  unfold resourceUpdate
  simp only [h, hupd]

/-- The result of `resourceUpdate` once the request is built and accepted: the
loop decides between an early return and the read-back. -/
theorem resourceUpdate_after_update (kind : String) (c : Client) (d : ResourceData)
    (t t1 : Trace) (req : InstanceUpdateRequest) (inst0 : Instance)
    (h : updateRequest kind c d t = (.ok req, t1))
    (hupd : c.instancesUpdate req = .ok inst0) :
    resourceUpdate kind c d t =
      match updatePoll c 50 d (t1 ++ [.instancesUpdate req]) with
      | (some err, t) => (some err, d, t)
      | (none, t) => resourceRead kind c d t := by
  unfold resourceUpdate
  simp only [h, hupd]

/-- A `resourceRead` issues no `Plans.Find` and no `Instances.Update`. -/
theorem calls_resourceRead (kind : String) (c : Client) (d : ResourceData) (t : Trace) :
    updateCalls (resourceRead kind c d t).2.2 = updateCalls t ∧
    findCalls (resourceRead kind c d t).2.2 = findCalls t := by
  cases h : c.instancesGet (getCount t) with
  | error err =>
    rw [resourceRead_error kind c d t err h]
    exact ⟨by rw [updateCalls_append]; simp [updateCalls],
      by rw [findCalls_append]; simp [findCalls]⟩
  | ok inst =>
    rw [resourceRead_ok kind c d t inst h]
    exact ⟨by rw [updateCalls_append]; simp [updateCalls],
      by rw [findCalls_append]; simp [findCalls]⟩

/-- Once the request is built, `resourceUpdate` issues `Instances.Update` once,
with that request, and no `Plans.Find`, whatever happens afterwards. -/
theorem calls_resourceUpdate (kind : String) (c : Client) (d : ResourceData)
    (t t1 : Trace) (req : InstanceUpdateRequest)
    (h : updateRequest kind c d t = (.ok req, t1)) :
    updateCalls (resourceUpdate kind c d t).2.2 = updateCalls t1 ++ [req] ∧
    findCalls (resourceUpdate kind c d t).2.2 = findCalls t1 := by
  have hu : updateCalls (t1 ++ [Call.instancesUpdate req]) = updateCalls t1 ++ [req] := by
    rw [updateCalls_append]; rfl
  have hf : findCalls (t1 ++ [Call.instancesUpdate req]) = findCalls t1 := by
    rw [findCalls_append]; simp [findCalls]
  cases hupd : c.instancesUpdate req with
  | error err =>
    rw [resourceUpdate_of_update_error kind c d t t1 req err h hupd]
    exact ⟨hu, hf⟩
  | ok inst0 =>
    rw [resourceUpdate_after_update kind c d t t1 req inst0 h hupd]
    obtain ⟨k, _, hk⟩ := updatePoll_trace c d 50 (t1 ++ [.instancesUpdate req])
    have hu2 : updateCalls (updatePoll c 50 d (t1 ++ [.instancesUpdate req])).2 =
        updateCalls t1 ++ [req] := by
      rw [hk, updateCalls_append, updateCalls_pollCalls, List.append_nil, hu]
    have hf2 : findCalls (updatePoll c 50 d (t1 ++ [.instancesUpdate req])).2 =
        findCalls t1 := by
      rw [hk, findCalls_append, findCalls_pollCalls, List.append_nil, hf]
    generalize updatePoll c 50 d (t1 ++ [.instancesUpdate req]) = p at hu2 hf2 ⊢
    obtain ⟨e, t'⟩ := p
    cases e with
    | some err => exact ⟨hu2, hf2⟩
    | none =>
      show updateCalls (resourceRead kind c d t').2.2 = _ ∧
        findCalls (resourceRead kind c d t').2.2 = _
      rw [(calls_resourceRead kind c d t').1, (calls_resourceRead kind c d t').2]
      exact ⟨hu2, hf2⟩

/-- The fields of a request that was built: the ID of the configuration,
`Enabled` exactly when `enabled` changed, and the plan ID of the plan found
when the lookup was made. -/
theorem updateRequest_ok (kind : String) (c : Client) (d : ResourceData) (t t1 : Trace)
    (req : InstanceUpdateRequest) (h : updateRequest kind c d t = (.ok req, t1)) :
    req.ID = d.Id ∧
    req.Enabled = (if "enabled" ∈ d.changed then some d.enabled else none) ∧
    ((("cloud" ∈ d.changed ∨ "region" ∈ d.changed ∨ "plan" ∈ d.changed) ∧
        ∃ plan, c.plansFind (planFindRequest kind d) = .ok plan ∧ req.PlanID = plan.ID ∧
          t1 = t ++ [.plansFind (planFindRequest kind d)]) ∨
      (¬ ("cloud" ∈ d.changed ∨ "region" ∈ d.changed ∨ "plan" ∈ d.changed) ∧
        req.PlanID = "" ∧ t1 = t)) := by
  have hen : ∀ r : InstanceUpdateRequest, r.Enabled = none →
      (updateRequestTail kind d r).Enabled =
        (if "enabled" ∈ d.changed then some d.enabled else none) := by
    intro r hr
    rw [(updateRequestTail_fields kind d r).2.2.2, hr]
    unfold ResourceData.HasChange
    by_cases he : "enabled" ∈ d.changed
    · rw [if_pos he, if_pos (decide_eq_true he)]
    · rw [if_neg he, if_neg (by rw [decide_eq_true_eq]; exact he)]
  rcases updateRequest_cases kind c d t with ⟨_, err, _, h'⟩ | ⟨hc, plan, hf, h'⟩ | ⟨hc, h'⟩
  · rw [h'] at h
    cases h
  · rw [h'] at h
    cases h
    refine ⟨?_, ?_, Or.inl ⟨hc, plan, hf, ?_, rfl⟩⟩
    · rw [(updateRequestTail_fields kind d _).1]
      exact (updateRequestHead_fields d).1
    · exact hen _ (updateRequestHead_fields d).2.2
    · rw [(updateRequestTail_fields kind d _).2.1]
  · rw [h'] at h
    cases h
    refine ⟨?_, ?_, Or.inr ⟨hc, ?_, rfl⟩⟩
    · rw [(updateRequestTail_fields kind d _).1]
      exact (updateRequestHead_fields d).1
    · exact hen _ (updateRequestHead_fields d).2.2
    · rw [(updateRequestTail_fields kind d _).2.1]
      exact (updateRequestHead_fields d).2.1

/-- The requests of the `Instances.Update` calls of a fresh `resourceUpdate`:
none when the plan lookup fails, else the one request that was built. -/
theorem updateCalls_resourceUpdate (kind : String) (c : Client) (d : ResourceData) :
    (∃ err t1, updateRequest kind c d [] = (.error err, t1) ∧
      updateCalls (resourceUpdate kind c d []).2.2 = []) ∨
    (∃ req t1, updateRequest kind c d [] = (.ok req, t1) ∧
      updateCalls (resourceUpdate kind c d []).2.2 = [req]) := by
  rcases updateRequest_cases kind c d [] with ⟨_, err, _, h⟩ | ⟨_, plan, _, h⟩ | ⟨_, h⟩
  · refine Or.inl ⟨err, _, h, ?_⟩
    rw [resourceUpdate_of_request_error kind c d [] _ err h]
    rfl
  · refine Or.inr ⟨_, _, h, ?_⟩
    rw [(calls_resourceUpdate kind c d [] _ _ h).1]
    rfl
  · refine Or.inr ⟨_, _, h, ?_⟩
    rw [(calls_resourceUpdate kind c d [] _ _ h).1]
    rfl

/-- C5: every request that `resourceUpdate` passes to `Instances.Update` has
`Enabled` set exactly when `enabled` is among the changed keys, and then to
the current value of `enabled`; the request is passed whenever the plan lookup
is not made or succeeds; a change to false gives `some false`, no change
gives `none`. -/
theorem resourceUpdate_enabled_pointer (kind : String) (c : Client) (d : ResourceData) :
    (∀ req ∈ updateCalls (resourceUpdate kind c d []).2.2,
      req.Enabled = (if "enabled" ∈ d.changed then some d.enabled else none)) ∧
    ((¬ ("cloud" ∈ d.changed ∨ "region" ∈ d.changed ∨ "plan" ∈ d.changed) ∨
        ∃ plan, c.plansFind (planFindRequest kind d) = .ok plan) →
      ∃ req, updateCalls (resourceUpdate kind c d []).2.2 = [req]) ∧
    ("enabled" ∈ d.changed → d.enabled = false →
      ∀ req ∈ updateCalls (resourceUpdate kind c d []).2.2, req.Enabled = some false) ∧
    ("enabled" ∉ d.changed →
      ∀ req ∈ updateCalls (resourceUpdate kind c d []).2.2, req.Enabled = none) := by
  have hall : ∀ req ∈ updateCalls (resourceUpdate kind c d []).2.2,
      req.Enabled = (if "enabled" ∈ d.changed then some d.enabled else none) := by
    intro req hreq
    rcases updateCalls_resourceUpdate kind c d with ⟨err, t1, _, hu⟩ | ⟨r, t1, h, hu⟩
    · rw [hu] at hreq
      cases hreq
    · rw [hu, List.mem_singleton] at hreq
      subst hreq
      exact (updateRequest_ok kind c d [] t1 req h).2.1
  refine ⟨hall, ?_, ?_, ?_⟩
  · intro hcase
    rcases updateCalls_resourceUpdate kind c d with ⟨err, t1, h, _⟩ | ⟨r, t1, _, hu⟩
    · exfalso
      rcases updateRequest_cases kind c d [] with ⟨hc, e, hf, _⟩ | ⟨_, _, _, h'⟩ | ⟨_, h'⟩
      · rcases hcase with hn | ⟨plan, hp⟩
        · exact hn hc
        · rw [hp] at hf
          cases hf
      · rw [h'] at h
        cases h
      · rw [h'] at h
        cases h
    · exact ⟨r, hu⟩
  · intro he hfalse req hreq
    rw [hall req hreq, if_pos he, hfalse]
  · intro he req hreq
    rw [hall req hreq, if_neg he]

/-- C6: `resourceUpdate` calls `Plans.Find` exactly when one of cloud, region,
plan changed, then once, with the current cloud, region and plan name and the
kind; an error of the lookup is returned with no `Instances.Update` call; a
plan found gives the request its plan ID; with none of the three changed the
plan ID of the request is empty. -/
theorem resourceUpdate_plan_resolution (kind : String) (c : Client) (d : ResourceData) :
    findCalls (resourceUpdate kind c d []).2.2 =
      (if "cloud" ∈ d.changed ∨ "region" ∈ d.changed ∨ "plan" ∈ d.changed then
        [{ Cloud := d.cloud, Region := d.region, Name := d.plan, Kind := kind }] else []) ∧
    (∀ err, ("cloud" ∈ d.changed ∨ "region" ∈ d.changed ∨ "plan" ∈ d.changed) →
      c.plansFind (planFindRequest kind d) = .error err →
      resourceUpdate kind c d [] = (some err, d, [.plansFind (planFindRequest kind d)]) ∧
      updateCalls (resourceUpdate kind c d []).2.2 = []) ∧
    (∀ plan, ("cloud" ∈ d.changed ∨ "region" ∈ d.changed ∨ "plan" ∈ d.changed) →
      c.plansFind (planFindRequest kind d) = .ok plan →
      ∃ req, updateCalls (resourceUpdate kind c d []).2.2 = [req] ∧ req.PlanID = plan.ID) ∧
    (¬ ("cloud" ∈ d.changed ∨ "region" ∈ d.changed ∨ "plan" ∈ d.changed) →
      ∃ req, updateCalls (resourceUpdate kind c d []).2.2 = [req] ∧ req.PlanID = "") := by
  have hreq : planFindRequest kind d =
      { Cloud := d.cloud, Region := d.region, Name := d.plan, Kind := kind } := rfl
  refine ⟨?_, ?_, ?_, ?_⟩
  · rcases updateRequest_cases kind c d [] with ⟨hc, err, _, h⟩ | ⟨hc, plan, _, h⟩ | ⟨hc, h⟩
    · rw [resourceUpdate_of_request_error kind c d [] _ err h, if_pos hc, ← hreq]
      rfl
    · rw [(calls_resourceUpdate kind c d [] _ _ h).2, if_pos hc, ← hreq]
      rfl
    · rw [(calls_resourceUpdate kind c d [] _ _ h).2, if_neg hc]
      rfl
  · intro err hc hf
    rcases updateRequest_cases kind c d [] with ⟨_, e, hf', h⟩ | ⟨_, plan, hf', _⟩ | ⟨hn, _⟩
    · rw [hf] at hf'
      cases hf'
      rw [resourceUpdate_of_request_error kind c d [] _ err h]
      exact ⟨rfl, rfl⟩
    · rw [hf] at hf'
      cases hf'
    · exact absurd hc hn
  · intro plan hc hf
    rcases updateCalls_resourceUpdate kind c d with ⟨err, t1, h, _⟩ | ⟨r, t1, h, hu⟩
    · exfalso
      rcases updateRequest_cases kind c d [] with ⟨_, e, hf', _⟩ | ⟨_, _, _, h'⟩ | ⟨hn, _⟩
      · rw [hf] at hf'
        cases hf'
      · rw [h'] at h
        cases h
      · exact hn hc
    · refine ⟨r, hu, ?_⟩
      rcases (updateRequest_ok kind c d [] t1 r h).2.2 with ⟨_, p, hp, hid, _⟩ | ⟨hn, _, _⟩
      · rw [hf] at hp
        cases hp
        exact hid
      · exact absurd hc hn
  · intro hn
    rcases updateCalls_resourceUpdate kind c d with ⟨err, t1, h, _⟩ | ⟨r, t1, h, hu⟩
    · exfalso
      rcases updateRequest_cases kind c d [] with ⟨hc, _, _, _⟩ | ⟨hc, _, _, _⟩ | ⟨_, h'⟩
      · exact hn hc
      · exact hn hc
      · rw [h'] at h
        cases h
    · refine ⟨r, hu, ?_⟩
      rcases (updateRequest_ok kind c d [] t1 r h).2.2 with ⟨hc, _⟩ | ⟨_, hid, _⟩
      · exact absurd hc hn
      · exact hid

/-- C7: once the request is built and `Instances.Update` accepts it, the loop
of `resourceUpdate` polls at most 50 times, always for the ID of the
configuration, and ends in an early return or in the read-back; if the `k`-th
answer (`k ≤ 50`) is the first `running` one, it polls `k` times and returns
what `resourceRead` returns; if it is the first `failed` one, it returns the
error `failed instanceResource` after `k` polls, with no read-back; if none of
the 50 answers is `running` or `failed`, it polls 50 times and returns what
`resourceRead` returns; and the loop of `resourceCreate`, run with the same
bound against the same answers, ends in the same way after as many `Get`s. -/
theorem resourceUpdate_poll_semantics (kind : String) (c : Client) (d : ResourceData)
    (req : InstanceUpdateRequest) (t1 : Trace) (inst0 : Instance)
    (hreq : updateRequest kind c d [] = (.ok req, t1))
    (hupd : c.instancesUpdate req = .ok inst0) :
    (∃ k, k ≤ 50 ∧
      ((∃ err, resourceUpdate kind c d [] =
          (some err, d, t1 ++ [.instancesUpdate req] ++ pollCalls 5 (List.replicate k d.Id))) ∨
        resourceUpdate kind c d [] =
          resourceRead kind c d
            (t1 ++ [.instancesUpdate req] ++ pollCalls 5 (List.replicate k d.Id)))) ∧
    (∀ k, 1 ≤ k → k ≤ 50 → pendingBelow c (k - 1) →
      (∃ inst, c.instancesGet (k - 1) = .ok inst ∧ inst.State = "running") →
      resourceUpdate kind c d [] =
        resourceRead kind c d
          (t1 ++ [.instancesUpdate req] ++ pollCalls 5 (List.replicate k d.Id))) ∧
    (∀ k, 1 ≤ k → k ≤ 50 → pendingBelow c (k - 1) →
      (∃ inst, c.instancesGet (k - 1) = .ok inst ∧ inst.State = "failed") →
      resourceUpdate kind c d [] =
        (some (errorsNew "failed instanceResource"), d,
          t1 ++ [.instancesUpdate req] ++ pollCalls 5 (List.replicate k d.Id))) ∧
    (pendingBelow c 50 →
      resourceUpdate kind c d [] =
        resourceRead kind c d
          (t1 ++ [.instancesUpdate req] ++ pollCalls 5 (List.replicate 50 d.Id))) ∧
    (∀ (n : Nat) (data : Instance) (t t' : Trace), getCount t = getCount t' →
      (createPoll c n data t).1 = (updatePoll c n d t').1 ∧
      getCount (createPoll c n data t).2 = getCount (updatePoll c n d t').2) := by
  have hres := resourceUpdate_after_update kind c d [] t1 req inst0 hreq hupd
  have h0 : getCount (t1 ++ [Call.instancesUpdate req]) = 0 := by
    have h := getCount_updateRequest kind c d []
    rw [hreq] at h
    rw [getCount_append, h]
    rfl
  refine ⟨?_, ?_, ?_, ?_, fun n data t t' h => createPoll_updatePoll c n data d t t' h⟩
  · obtain ⟨k, hk, htr⟩ := updatePoll_trace c d 50 (t1 ++ [.instancesUpdate req])
    refine ⟨k, hk, ?_⟩
    rw [hres]
    generalize updatePoll c 50 d (t1 ++ [.instancesUpdate req]) = p at htr ⊢
    obtain ⟨e, t'⟩ := p
    cases e with
    | some err => exact Or.inl ⟨err, by rw [← htr]⟩
    | none => exact Or.inr (by rw [← htr])
  · intro k hk1 hk hp hrun
    rw [hres, updatePoll_running_at c d 50 k _ h0 hk1 hk hp hrun]
  · intro k hk1 hk hp hfail
    rw [hres, updatePoll_failed_at c d 50 k _ h0 hk1 hk hp hfail]
  · intro hp
    rw [hres, updatePoll_exhausted c d 50 _ h0 hp]

/-- C7 at a sample input: the name changed, the second answer is `running`;
`resourceUpdate` polls twice for `i-1` and returns the read-back. -/
theorem resourceUpdate_poll_semantics_witness :
    updateRequest "redis" (scriptedClient runSecond) (changedData true ["name"]) [] =
      (.ok { ID := "i-1", Name := "cache" }, []) ∧
    resourceUpdate "redis" (scriptedClient runSecond) (changedData true ["name"]) [] =
      resourceRead "redis" (scriptedClient runSecond) (changedData true ["name"])
        ([] ++ [.instancesUpdate { ID := "i-1", Name := "cache" }] ++
          pollCalls 5 (List.replicate 2 "i-1")) :=
  have hreq : updateRequest "redis" (scriptedClient runSecond) (changedData true ["name"]) [] =
      (.ok { ID := "i-1", Name := "cache" }, []) := rfl
  ⟨hreq, (resourceUpdate_poll_semantics "redis" (scriptedClient runSecond)
    (changedData true ["name"]) { ID := "i-1", Name := "cache" } []
    (sampleInstance "i-1" "pending") hreq rfl).2.1 2 (by decide) (by decide)
    (fun i hi => ⟨sampleInstance "i-1" "pending",
      by have h0 : i = 0 := by omega
         subst h0
         rfl,
      by decide, by decide⟩)
    ⟨sampleInstance "i-1" "running", rfl, rfl⟩⟩

/-- The request of an update at sample inputs: `enabled` changed to false gives
`some false`, only `region` changed gives the plan lookup and the plan ID. -/
theorem resourceUpdate_samples :
    updateCalls (resourceUpdate "redis" (scriptedClient runSecond)
        (changedData false ["enabled"]) []).2.2 = [{ ID := "i-1", Enabled := some false }] ∧
    updateCalls (resourceUpdate "redis" (scriptedClient runSecond)
        (changedData true ["name"]) []).2.2 = [{ ID := "i-1", Name := "cache" }] ∧
    findCalls (resourceUpdate "redis" (scriptedClient runSecond)
        (changedData true ["region"]) []).2.2 =
      [{ Cloud := "do", Region := "fra1", Name := "hobby", Kind := "redis" }] ∧
    updateCalls (resourceUpdate "redis" (scriptedClient runSecond)
        (changedData true ["region"]) []).2.2 = [{ ID := "i-1", PlanID := "plan-1" }] := by
  refine ⟨?_, ?_, ?_, ?_⟩ <;> decide

end Scalechamp
